import Mathlib

/-!
Verification development for the GetAttributes payload codec in
src/kmip/core/messages/payloads/get_attributes.py.

The payload classes are embedded directly from the source. The collaborators
they consume (the primitive TLV scalar codec, the byte stream, the tag
registry, the exception taxonomy and the opaque Attribute structure) are not
part of the examined source tree; those are modelled from the specification
document, and each such definition is marked with a doc comment starting
with "Modelled from the spec:".

Byte streams are `List Nat` with each element standing for one octet. All
payload operations return `Except KFault` values; the stateful `read`
methods of the source are embedded as explicit state-passing functions that
also return the instance state at the point of a failure.
-/

deriving instance DecidableEq for Except

/-- Modelled from the spec: wire-type marker for structures, supplied by the
external type registry (enums.Types, not in the examined sources). -/
def TYPE_STRUCTURE : Nat := 1

/-- Modelled from the spec: wire-type marker for text strings, supplied by
the external type registry (enums.Types, not in the examined sources). -/
def TYPE_TEXT_STRING : Nat := 7

/-- Modelled from the spec: wire tag for the UniqueIdentifier field, from the
external tag registry (enums.Tags, not in the examined sources). -/
def UNIQUE_IDENTIFIER_TAG : Nat := 0x420094

/-- Modelled from the spec: wire tag for the AttributeName field, from the
external tag registry (enums.Tags, not in the examined sources). -/
def ATTRIBUTE_NAME_TAG : Nat := 0x42000A

/-- Modelled from the spec: wire tag for the Attribute structure, from the
external tag registry (enums.Tags, not in the examined sources). -/
def ATTRIBUTE_TAG : Nat := 0x420008

/-- Modelled from the spec: wire tag for the request payload structure, from
the external tag registry (enums.Tags, not in the examined sources). -/
def REQUEST_PAYLOAD_TAG : Nat := 0x420079

/-- Modelled from the spec: wire tag for the response payload structure, from
the external tag registry (enums.Tags, not in the examined sources). -/
def RESPONSE_PAYLOAD_TAG : Nat := 0x42007C

/-- Modelled from the spec: the fault taxonomy of section 7. `typeFault`
stands for TypeError, `missingField` for exceptions.InvalidField, and
`malformedEncoding` for exceptions.InvalidKmipEncoding together with the
oversized / trailing-data stream failure. -/
inductive KFault where
  | typeFault (msg : String)
  | missingField (msg : String)
  | malformedEncoding (msg : String)
deriving DecidableEq

/-- Modelled from the spec: the three-octet big-endian encoding of a wire
tag, as written by the primitive codec (Base.write_tag). -/
def tagBytes (t : Nat) : List Nat :=
  [t / 65536 % 256, t / 256 % 256, t % 256]

/-- Modelled from the spec: the four-octet big-endian encoding of a declared
length, as written by the primitive codec (Base.write_length). -/
def natToBytes4 (n : Nat) : List Nat :=
  [n / 16777216 % 256, n / 65536 % 256, n / 256 % 256, n % 256]

/-- Modelled from the spec: the generic TLV envelope writer of section 4.1 -
tag, wire-type marker, declared length (the byte length of the value), then
the value octets. -/
def writeTLV (tag ty : Nat) (v : List Nat) : List Nat :=
  tagBytes tag ++ ty :: (natToBytes4 v.length ++ v)

/-- Modelled from the spec: the generic TLV envelope reader of section 4.1 -
read the tag, type and length header, checking tag and type against the
expectation, then carve out exactly the declared number of octets as the
bounded value region, returning it with the rest of the stream. As with the
source byte stream, a region shorter than the declared length yields the
octets that are actually present. -/
def readTLV (expTag expTy : Nat) (s : List Nat) :
    Except KFault (List Nat × List Nat) :=
  match s with
  | t0 :: t1 :: t2 :: ty :: l0 :: l1 :: l2 :: l3 :: rest =>
    if t0 * 65536 + t1 * 256 + t2 = expTag then
      if ty = expTy then
        .ok (rest.take (l0 * 16777216 + l1 * 65536 + l2 * 256 + l3),
             rest.drop (l0 * 16777216 + l1 * 65536 + l2 * 256 + l3))
      else .error (.malformedEncoding "type mismatch")
    else .error (.malformedEncoding "tag mismatch")
  | _ => .error (.malformedEncoding "buffer underflow")

/-- Modelled from the spec: the non-consuming tag lookahead of section 4.1
(Base.is_tag_next) - peek at the next three octets and compare them with the
expected tag; a stream with fewer than three octets has no next tag. -/
def isTagNext (expTag : Nat) (s : List Nat) : Bool :=
  match s with
  | t0 :: t1 :: t2 :: _ => decide (t0 * 65536 + t1 * 256 + t2 = expTag)
  | _ => false

/-- Modelled from the spec: primitives.TextString, a tagged text scalar. The
text value is carried as its list of octets. -/
structure TextString where
  tag : Nat
  value : List Nat
deriving DecidableEq

/-- Modelled from the spec: the TextString writer - a TLV envelope with the
text-string wire type around the value octets. -/
def TextString.write (t : TextString) : List Nat :=
  writeTLV t.tag TYPE_TEXT_STRING t.value

/-- Modelled from the spec: objects.Attribute, an opaque codable nested
structure with its own recursive structural equality. Its body octets are
carried verbatim. -/
structure Attribute where
  body : List Nat
deriving DecidableEq

/-- Modelled from the spec: the Attribute writer - a TLV structure envelope
around the opaque body octets. -/
def Attribute.write (a : Attribute) : List Nat :=
  writeTLV ATTRIBUTE_TAG TYPE_STRUCTURE a.body

/-- Modelled from the spec: the scalar Python values the setters inspect -
strings, integers, None and Attribute objects. -/
inductive PyScalar where
  | str (s : List Nat)
  | intV (n : Int)
  | noneS
  | attrS (a : Attribute)
deriving DecidableEq

/-- Modelled from the spec: the Python type name reported in setter
failures. -/
def pyTypeName : PyScalar → String
  | .str _ => "str"
  | .intV _ => "int"
  | .noneS => "NoneType"
  | .attrS _ => "Attribute"

/-- Modelled from the spec: a Python value handed to a setter - either a
scalar or a list of scalars. -/
inductive PyVal where
  | scalar (v : PyScalar)
  | listV (l : List PyScalar)
deriving DecidableEq

/-- The uid setter shared by both payload classes (get_attributes.py lines
67-77 and 237-247): None clears the field, a string is stored as a
UniqueIdentifier-tagged TextString, anything else raises TypeError. -/
def uidSetter (value : PyVal) : Except KFault (Option TextString) :=
  match value with
  | .scalar .noneS => .ok none
  | .scalar (.str s) => .ok (some ⟨UNIQUE_IDENTIFIER_TAG, s⟩)
  | _ => .error (.typeFault "uid must be a string")

/-- The failure message of the attribute_names element check
(get_attributes.py lines 98-101); the position argument is the value the
source interpolates, which is the zero-based loop index plus one. -/
def namesItemMsg (pos : Nat) (ty : String) : String :=
  "attribute_names must be a list of strings; item " ++ toString pos ++
    " has type " ++ ty

/-- The validation loop of the attribute_names setter (get_attributes.py
lines 94-103): walk the list with index i, raise TypeError at the first
non-string element reporting position i + 1 and its type, and accumulate
each string not already accumulated (first occurrence wins). -/
def namesLoop : List PyScalar → Nat → List (List Nat) →
    Except KFault (List (List Nat))
  | [], _, names => .ok names
  | v :: rest, i, names =>
    match v with
    | .str name =>
      if name ∈ names then namesLoop rest (i + 1) names
      else namesLoop rest (i + 1) (names ++ [name])
    | _ => .error (.typeFault (namesItemMsg (i + 1) (pyTypeName v)))

/-- The attribute_names setter (get_attributes.py lines 89-113): None stores
the empty list, a list is validated and deduplicated by namesLoop and the
retained names are stored as AttributeName-tagged TextStrings, anything else
raises TypeError. -/
def attributeNamesSetter (value : PyVal) :
    Except KFault (List TextString) :=
  match value with
  | .scalar .noneS => .ok []
  | .listV l =>
    match namesLoop l 0 [] with
    | .error e => .error e
    | .ok names => .ok (names.map fun n => ⟨ATTRIBUTE_NAME_TAG, n⟩)
  | _ => .error (.typeFault "attribute_names must be a list of strings")

/-- The failure message of the attributes element check (get_attributes.py
lines 261-263); the position argument is the zero-based loop index plus
one. -/
def attrsItemMsg (pos : Nat) (ty : String) : String :=
  "attributes must be a list of attribute objects; item " ++ toString pos ++
    " has type " ++ ty

/-- The validation loop of the attributes setter (get_attributes.py lines
258-264): raise TypeError at the first element that is not an Attribute,
reporting position i + 1 and its type. -/
def attrCheckLoop : List PyScalar → Nat → Except KFault Unit
  | [], _ => .ok ()
  | v :: rest, i =>
    match v with
    | .attrS _ => attrCheckLoop rest (i + 1)
    | _ => .error (.typeFault (attrsItemMsg (i + 1) (pyTypeName v)))

/-- The attributes setter (get_attributes.py lines 253-267): None stores the
empty list, a list is stored as given once every element is checked to be an
Attribute (the stored list is exactly the input, extracted here from the
checked scalars), anything else raises TypeError. -/
def attributesSetter (value : PyVal) : Except KFault (List Attribute) :=
  match value with
  | .scalar .noneS => .ok []
  | .listV l =>
    match attrCheckLoop l 0 with
    | .error e => .error e
    | .ok _ => .ok (l.filterMap fun v =>
        match v with
        | .attrS a => some a
        | _ => none)
  | _ => .error (.typeFault "attributes must be a list of attribute objects")

/-- GetAttributesRequestPayload state: the private _uid and _attribute_names
fields (get_attributes.py lines 54-55). The base Struct tag is the constant
REQUEST_PAYLOAD_TAG and the base length field is recomputed on every write,
so neither is carried in the state. -/
structure GetAttributesRequestPayload where
  _uid : Option TextString
  _attribute_names : List TextString
deriving DecidableEq

/-- The uid property (get_attributes.py lines 60-65): the stored scalar's
value when present, None otherwise. -/
def GetAttributesRequestPayload.uid (p : GetAttributesRequestPayload) :
    Option (List Nat) :=
  p._uid.map TextString.value

/-- The attribute_names property (get_attributes.py lines 79-87): the list
of stored scalar values. -/
def GetAttributesRequestPayload.attribute_names
    (p : GetAttributesRequestPayload) : List (List Nat) :=
  p._attribute_names.map TextString.value

/-- The GetAttributesRequestPayload constructor (get_attributes.py lines
39-58): run both setters and populate the fields. -/
def mkRequest (uid attribute_names : PyVal) :
    Except KFault GetAttributesRequestPayload := do
  let u ← uidSetter uid
  let ns ← attributeNamesSetter attribute_names
  return ⟨u, ns⟩

/-- GetAttributesResponsePayload state: the private _uid and _attributes
fields (get_attributes.py lines 224-225). -/
structure GetAttributesResponsePayload where
  _uid : Option TextString
  _attributes : List Attribute
deriving DecidableEq

/-- The response uid property (get_attributes.py lines 230-235). -/
def GetAttributesResponsePayload.uid (p : GetAttributesResponsePayload) :
    Option (List Nat) :=
  p._uid.map TextString.value

/-- The attributes property (get_attributes.py lines 249-251). -/
def GetAttributesResponsePayload.attributes
    (p : GetAttributesResponsePayload) : List Attribute :=
  p._attributes

/-- The GetAttributesResponsePayload constructor (get_attributes.py lines
210-228). -/
def mkResponse (uid attributes : PyVal) :
    Except KFault GetAttributesResponsePayload := do
  let u ← uidSetter uid
  let attrs ← attributesSetter attributes
  return ⟨u, attrs⟩

/-- Python set equality over two value lists, as used by the request
equality (set(xs) == set(ys)): the two lists have the same members. -/
def setEq (xs ys : List (List Nat)) : Bool :=
  xs.all (fun x => decide (x ∈ ys)) && ys.all (fun y => decide (y ∈ xs))

/-- Request payload equality (get_attributes.py lines 177-187): uids equal
and attribute-name collections equal as sets. -/
def reqEq (a b : GetAttributesRequestPayload) : Bool :=
  decide (a.uid = b.uid) && setEq a.attribute_names b.attribute_names

/-- Response payload equality (get_attributes.py lines 331-344): uids equal,
attribute lists of equal length and pairwise equal in stored order. -/
def respEq (a b : GetAttributesResponsePayload) : Bool :=
  decide (a.uid = b.uid) &&
    decide (a._attributes.length = b._attributes.length) &&
    (a._attributes.zip b._attributes).all fun ab => decide (ab.1 = ab.2)

/-- The request payload body writer (get_attributes.py lines 151-157): the
uid scalar when present, then each stored attribute name in order. -/
def writeRequestBody (p : GetAttributesRequestPayload) : List Nat :=
  (match p._uid with
   | some u => u.write
   | none => []) ++
    (p._attribute_names.map TextString.write).flatten

/-- The request payload writer (get_attributes.py lines 142-161): the body
framed in the request payload structure envelope with its recomputed
length. -/
def writeRequest (p : GetAttributesRequestPayload) : List Nat :=
  writeTLV REQUEST_PAYLOAD_TAG TYPE_STRUCTURE (writeRequestBody p)

/-- The response payload body writer for a present uid (get_attributes.py
lines 307-317): the uid scalar, then each attribute structure in order. -/
def writeResponseBody (u : TextString) (attrs : List Attribute) : List Nat :=
  u.write ++ (attrs.map Attribute.write).flatten

/-- The response payload writer (get_attributes.py lines 298-321): raise
InvalidField when the uid is absent, otherwise frame the body in the
response payload structure envelope. The raise happens before any octet is
produced. -/
def writeResponse (p : GetAttributesResponsePayload) :
    Except KFault (List Nat) :=
  match p._uid with
  | none => .error (.missingField "The GetAttributes response uid is required.")
  | some u =>
    .ok (writeTLV RESPONSE_PAYLOAD_TAG TYPE_STRUCTURE
          (writeResponseBody u p._attributes))

/-- A successful readTLV strictly shrinks the stream: the header alone is
eight octets. -/
theorem readTLV_rest_lt (expTag expTy : Nat) (s v r : List Nat)
    (h : readTLV expTag expTy s = .ok (v, r)) : r.length < s.length := by
  unfold readTLV at h
  split at h
  case h_2 => exact absurd h (by simp)
  case h_1 t0 t1 t2 ty l0 l1 l2 l3 rest =>
    split at h
    · split at h
      · simp only [Except.ok.injEq, Prod.mk.injEq] at h
        obtain ⟨-, hr⟩ := h
        subst hr
        simp only [List.length_drop, List.length_cons]
        omega
      · exact absurd h (by simp)
    · exact absurd h (by simp)

/-- The uid phase of the request decode (get_attributes.py lines 127-131):
when the UniqueIdentifier tag is next, consume one text scalar, otherwise
leave the uid absent. -/
def readUid (body : List Nat) :
    Except KFault (Option TextString × List Nat) :=
  if isTagNext UNIQUE_IDENTIFIER_TAG body then
    match readTLV UNIQUE_IDENTIFIER_TAG TYPE_TEXT_STRING body with
    | .error e => .error e
    | .ok (v, r) => .ok (some ⟨UNIQUE_IDENTIFIER_TAG, v⟩, r)
  else .ok (none, body)

/-- The attribute-name phase of the request decode (get_attributes.py lines
133-138): consume text scalars while the AttributeName tag is next. The
accumulated list is local to the loop, so a failure discards it. -/
def readNames (s : List Nat) :
    Except KFault (List TextString × List Nat) :=
  if isTagNext ATTRIBUTE_NAME_TAG s then
    match h : readTLV ATTRIBUTE_NAME_TAG TYPE_TEXT_STRING s with
    | .error e => .error e
    | .ok (v, r) =>
      match readNames r with
      | .error e => .error e
      | .ok (ns, r2) => .ok (⟨ATTRIBUTE_NAME_TAG, v⟩ :: ns, r2)
  else .ok ([], s)
termination_by s.length
decreasing_by exact readTLV_rest_lt _ _ _ _ _ h

/-- The attribute phase of the response decode (get_attributes.py lines
290-294): consume Attribute structures while the Attribute tag is next,
appending each to the instance list, so a failure keeps the attributes
consumed so far. -/
def readAttributesLoop (acc : List Attribute) (s : List Nat) :
    Except (KFault × List Attribute) (List Attribute × List Nat) :=
  if isTagNext ATTRIBUTE_TAG s then
    match h : readTLV ATTRIBUTE_TAG TYPE_STRUCTURE s with
    | .error e => .error (e, acc)
    | .ok (v, r) => readAttributesLoop (acc ++ [⟨v⟩]) r
  else .ok (acc, s)
termination_by s.length
decreasing_by exact readTLV_rest_lt _ _ _ _ _ h

/-- The request payload read method (get_attributes.py lines 115-140), as a
state transformer over the mutated instance. The header is read and the
declared length carved out, then the uid phase assigns the _uid field (a
failing uid read leaves behind the freshly assigned blank scalar of line
128), then the name phase assigns _attribute_names, and finally any octet
left in the carved region raises the oversized failure with the instance
fully overwritten. -/
def readRequestMut (self : GetAttributesRequestPayload) (stream : List Nat) :
    Except (KFault × GetAttributesRequestPayload)
      (GetAttributesRequestPayload × List Nat) :=
  match readTLV REQUEST_PAYLOAD_TAG TYPE_STRUCTURE stream with
  | .error e => .error (e, self)
  | .ok (body, rest) =>
    match readUid body with
    | .error e =>
      .error (e, { self with _uid := some ⟨UNIQUE_IDENTIFIER_TAG, []⟩ })
    | .ok (uidOpt, afterUid) =>
      match readNames afterUid with
      | .error e => .error (e, { self with _uid := uidOpt })
      | .ok (names, leftover) =>
        if leftover = [] then
          .ok ({ _uid := uidOpt, _attribute_names := names }, rest)
        else
          .error (.malformedEncoding "oversized",
            { _uid := uidOpt, _attribute_names := names })

/-- The response payload read method (get_attributes.py lines 269-296), as a
state transformer over the mutated instance. The uid is mandatory: when its
tag is not next the decode fails with the InvalidKmipEncoding message of
line 287 before any field is assigned. A successful uid read assigns the
field through the setter, the attribute list is reset and filled by the
loop, and trailing octets in the carved region raise the oversized failure
with the instance fully overwritten. -/
def readResponseMut (self : GetAttributesResponsePayload) (stream : List Nat) :
    Except (KFault × GetAttributesResponsePayload)
      (GetAttributesResponsePayload × List Nat) :=
  match readTLV RESPONSE_PAYLOAD_TAG TYPE_STRUCTURE stream with
  | .error e => .error (e, self)
  | .ok (body, rest) =>
    if isTagNext UNIQUE_IDENTIFIER_TAG body then
      match readTLV UNIQUE_IDENTIFIER_TAG TYPE_TEXT_STRING body with
      | .error e => .error (e, self)
      | .ok (v, afterUid) =>
        match readAttributesLoop [] afterUid with
        | .error (e, partialAttrs) =>
          .error (e, { _uid := some ⟨UNIQUE_IDENTIFIER_TAG, v⟩,
                       _attributes := partialAttrs })
        | .ok (attrs, leftover) =>
          if leftover = [] then
            .ok ({ _uid := some ⟨UNIQUE_IDENTIFIER_TAG, v⟩,
                   _attributes := attrs }, rest)
          else
            .error (.malformedEncoding "oversized",
              { _uid := some ⟨UNIQUE_IDENTIFIER_TAG, v⟩,
                _attributes := attrs })
    else
      .error (.malformedEncoding
        "expected GetAttributes response uid not found", self)

/-- Decoding a byte region into a fresh request payload, as the transport
layer does: run the read method on a newly constructed instance. -/
def readRequest (stream : List Nat) :
    Except KFault (GetAttributesRequestPayload × List Nat) :=
  match readRequestMut ⟨none, []⟩ stream with
  | .error (e, _) => .error e
  | .ok x => .ok x

/-- Decoding a byte region into a fresh response payload. -/
def readResponse (stream : List Nat) :
    Except KFault (GetAttributesResponsePayload × List Nat) :=
  match readResponseMut ⟨none, []⟩ stream with
  | .error (e, _) => .error e
  | .ok x => .ok x

/-- A text scalar is encodable when its declared length fits the four-octet
length field. -/
def validTS (tag : Nat) (t : TextString) : Bool :=
  t.tag == tag && decide (t.value.length < 4294967296)

/-- A request payload is valid when its stored scalars carry the tags the
setters assign and every declared length fits the length field. -/
def validReq (p : GetAttributesRequestPayload) : Bool :=
  (match p._uid with
   | none => true
   | some u => validTS UNIQUE_IDENTIFIER_TAG u) &&
    p._attribute_names.all (validTS ATTRIBUTE_NAME_TAG) &&
    decide ((writeRequestBody p).length < 4294967296)

/-- A response payload is valid when its uid scalar carries the tag the
setter assigns and every declared length fits the length field. -/
def validResp (p : GetAttributesResponsePayload) : Bool :=
  (match p._uid with
   | none => true
   | some u => validTS UNIQUE_IDENTIFIER_TAG u &&
       decide ((writeResponseBody u p._attributes).length < 4294967296)) &&
    p._attributes.all fun a => decide (a.body.length < 4294967296)

/-- The specification-side description of duplicate collapse (section 3):
keep the first occurrence of each value in its position and drop every later
duplicate, leaving the relative order of the rest untouched. Stated as a
recursion independent of the accumulator loop of the source. -/
def firstOcc : List (List Nat) → List (List Nat)
  | [] => []
  | x :: xs => x :: (firstOcc xs).filter (fun y => decide (y ≠ x))

/-- The Python statement assigning the request uid attribute: the setter
validates and, on a raise, the instance is untouched because the raise in
the source precedes the field assignment. -/
def setRequestUidMut (p : GetAttributesRequestPayload) (v : PyVal) :
    Except (KFault × GetAttributesRequestPayload)
      GetAttributesRequestPayload :=
  match uidSetter v with
  | .error e => .error (e, p)
  | .ok u => .ok { p with _uid := u }

/-- The Python statement assigning the request attribute_names attribute. -/
def setAttributeNamesMut (p : GetAttributesRequestPayload) (v : PyVal) :
    Except (KFault × GetAttributesRequestPayload)
      GetAttributesRequestPayload :=
  match attributeNamesSetter v with
  | .error e => .error (e, p)
  | .ok ns => .ok { p with _attribute_names := ns }

/-- The Python statement assigning the response uid attribute. -/
def setResponseUidMut (p : GetAttributesResponsePayload) (v : PyVal) :
    Except (KFault × GetAttributesResponsePayload)
      GetAttributesResponsePayload :=
  match uidSetter v with
  | .error e => .error (e, p)
  | .ok u => .ok { p with _uid := u }

/-- The Python statement assigning the response attributes attribute. -/
def setAttributesMut (p : GetAttributesResponsePayload) (v : PyVal) :
    Except (KFault × GetAttributesResponsePayload)
      GetAttributesResponsePayload :=
  match attributesSetter v with
  | .error e => .error (e, p)
  | .ok attrs => .ok { p with _attributes := attrs }

/-- A response byte region whose carved body holds a uid field followed by
one stray octet. -/
def oversizedResponseStream : List Nat :=
  writeTLV RESPONSE_PAYLOAD_TAG TYPE_STRUCTURE
    (writeTLV UNIQUE_IDENTIFIER_TAG TYPE_TEXT_STRING [2] ++ [0])

/-- Reading a TLV envelope from its own encoding followed by any tail
recovers the value and leaves exactly the tail, provided the tag fits three
octets and the value length fits four. -/
theorem readTLV_writeTLV (t ty : Nat) (v r : List Nat)
    (ht : t < 16777216) (hv : v.length < 4294967296) :
    readTLV t ty (writeTLV t ty v ++ r) = .ok (v, r) := by
  have h1 : t / 65536 % 256 * 65536 + t / 256 % 256 * 256 + t % 256 = t := by
    omega
  have h2 : v.length / 16777216 % 256 * 16777216 +
      v.length / 65536 % 256 * 65536 + v.length / 256 % 256 * 256 +
      v.length % 256 = v.length := by
    omega
  simp only [writeTLV, tagBytes, natToBytes4, List.cons_append,
    List.append_assoc, List.nil_append, readTLV, h1, h2, if_true,
    eq_self_iff_true, List.take_left, List.drop_left]

/-- The tag lookahead over a TLV encoding followed by any tail sees exactly
the encoded tag. -/
theorem isTagNext_writeTLV (expTag t ty : Nat) (v r : List Nat)
    (ht : t < 16777216) :
    isTagNext expTag (writeTLV t ty v ++ r) = decide (t = expTag) := by
  have h1 : t / 65536 % 256 * 65536 + t / 256 % 256 * 256 + t % 256 = t := by
    omega
  simp only [writeTLV, tagBytes, List.cons_append, isTagNext, h1]

/-- The lookahead fails on the empty stream. -/
theorem isTagNext_nil (expTag : Nat) : isTagNext expTag [] = false := rfl

/-- The name loop consumes exactly the concatenated encodings of a list of
AttributeName scalars, recovering the scalars in wire order, and stops at
any tail that does not start with the AttributeName tag. -/
theorem readNames_flatten (ns : List TextString)
    (hns : ∀ n ∈ ns, n.tag = ATTRIBUTE_NAME_TAG ∧ n.value.length < 4294967296)
    (r : List Nat) (hr : isTagNext ATTRIBUTE_NAME_TAG r = false) :
    readNames ((ns.map TextString.write).flatten ++ r) = .ok (ns, r) := by
  induction ns with
  | nil =>
    rw [readNames]
    simp [hr]
  | cons n ns ih =>
    obtain ⟨ntag, nval⟩ := n
    obtain ⟨htag, hlen⟩ := hns ⟨ntag, nval⟩ (List.mem_cons_self _ _)
    simp only at htag hlen
    subst htag
    rw [List.map_cons, List.flatten_cons, List.append_assoc,
      TextString.write]
    rw [readNames]
    rw [isTagNext_writeTLV ATTRIBUTE_NAME_TAG ATTRIBUTE_NAME_TAG
        TYPE_TEXT_STRING nval ((List.map TextString.write ns).flatten ++ r)
        (by decide),
      readTLV_writeTLV ATTRIBUTE_NAME_TAG TYPE_TEXT_STRING nval
        ((List.map TextString.write ns).flatten ++ r) (by decide) hlen]
    simp [ih (fun m hm => hns m (List.mem_cons_of_mem _ hm))]

/-- The attribute loop consumes exactly the concatenated encodings of a list
of Attribute structures, appending them to the accumulator in wire order,
and stops at any tail that does not start with the Attribute tag. -/
theorem readAttributesLoop_flatten (attrs : List Attribute)
    (hattrs : ∀ a ∈ attrs, a.body.length < 4294967296)
    (acc : List Attribute) (r : List Nat)
    (hr : isTagNext ATTRIBUTE_TAG r = false) :
    readAttributesLoop acc ((attrs.map Attribute.write).flatten ++ r) =
      .ok (acc ++ attrs, r) := by
  induction attrs generalizing acc with
  | nil =>
    rw [readAttributesLoop]
    simp [hr]
  | cons a attrs ih =>
    obtain ⟨abody⟩ := a
    have hlen := hattrs ⟨abody⟩ (List.mem_cons_self _ _)
    simp only at hlen
    rw [List.map_cons, List.flatten_cons, List.append_assoc,
      Attribute.write]
    rw [readAttributesLoop]
    rw [isTagNext_writeTLV ATTRIBUTE_TAG ATTRIBUTE_TAG TYPE_STRUCTURE abody
        ((List.map Attribute.write attrs).flatten ++ r) (by decide),
      readTLV_writeTLV ATTRIBUTE_TAG TYPE_STRUCTURE abody
        ((List.map Attribute.write attrs).flatten ++ r) (by decide) hlen]
    simp [ih (fun m hm => hattrs m (List.mem_cons_of_mem _ hm))]

/-- Unfolding of the text-scalar validity check. -/
theorem validTS_iff (tag : Nat) (t : TextString) :
    validTS tag t = true ↔
      t.tag = tag ∧ t.value.length < 4294967296 := by
  simp [validTS]

/-- A concatenation of AttributeName encodings never starts with the
UniqueIdentifier tag. -/
theorem isTagNext_uid_names (ns : List TextString)
    (hns : ∀ n ∈ ns, n.tag = ATTRIBUTE_NAME_TAG) :
    isTagNext UNIQUE_IDENTIFIER_TAG ((ns.map TextString.write).flatten)
      = false := by
  cases ns with
  | nil => rfl
  | cons n ns =>
    obtain ⟨ntag, nval⟩ := n
    have htag := hns ⟨ntag, nval⟩ (List.mem_cons_self _ _)
    simp only at htag
    subst htag
    rw [List.map_cons, List.flatten_cons, TextString.write]
    rw [isTagNext_writeTLV UNIQUE_IDENTIFIER_TAG ATTRIBUTE_NAME_TAG
        TYPE_TEXT_STRING nval ((List.map TextString.write ns).flatten)
        (by decide)]
    decide

/-- The uid phase applied to a request body recovers the stored uid and
leaves exactly the name encodings. -/
theorem readUid_writeRequestBody (p : GetAttributesRequestPayload)
    (huid : ∀ u, p._uid = some u →
      u.tag = UNIQUE_IDENTIFIER_TAG ∧ u.value.length < 4294967296)
    (hnames : ∀ n ∈ p._attribute_names, n.tag = ATTRIBUTE_NAME_TAG) :
    readUid (writeRequestBody p) =
      .ok (p._uid, (p._attribute_names.map TextString.write).flatten) := by
  unfold writeRequestBody
  cases hu : p._uid with
  | none =>
    rw [readUid]
    rw [List.nil_append, isTagNext_uid_names _ hnames]
    simp
  | some u =>
    obtain ⟨utag, uval⟩ := u
    obtain ⟨htag, hlen⟩ := huid ⟨utag, uval⟩ hu
    simp only at htag hlen
    subst htag
    simp only [TextString.write]
    rw [readUid]
    rw [isTagNext_writeTLV UNIQUE_IDENTIFIER_TAG UNIQUE_IDENTIFIER_TAG
        TYPE_TEXT_STRING uval ((List.map TextString.write
          p._attribute_names).flatten) (by decide),
      readTLV_writeTLV UNIQUE_IDENTIFIER_TAG TYPE_TEXT_STRING uval
        ((List.map TextString.write p._attribute_names).flatten)
        (by decide) hlen]
    simp

/-- Reading back the encoding of a valid request payload on any instance
succeeds, fully consumes the region, and reconstructs exactly the encoded
payload. -/
theorem readRequestMut_writeRequest (self p : GetAttributesRequestPayload)
    (hv : validReq p = true) :
    readRequestMut self (writeRequest p) = .ok (p, []) := by
  have hv2 := hv
  simp only [validReq, Bool.and_eq_true, List.all_eq_true,
    decide_eq_true_eq] at hv2
  obtain ⟨⟨huid, hnames⟩, hbody⟩ := hv2
  have huid2 : ∀ u, p._uid = some u →
      u.tag = UNIQUE_IDENTIFIER_TAG ∧ u.value.length < 4294967296 := by
    intro u hu
    rw [hu] at huid
    exact (validTS_iff _ _).1 huid
  have hnames2 : ∀ n ∈ p._attribute_names,
      n.tag = ATTRIBUTE_NAME_TAG ∧ n.value.length < 4294967296 :=
    fun n hn => (validTS_iff _ _).1 (hnames n hn)
  have h1 := readTLV_writeTLV REQUEST_PAYLOAD_TAG TYPE_STRUCTURE
    (writeRequestBody p) [] (by decide) hbody
  rw [List.append_nil] at h1
  have h2 := readUid_writeRequestBody p huid2 (fun n hn => (hnames2 n hn).1)
  have h3 := readNames_flatten p._attribute_names hnames2 [] rfl
  rw [List.append_nil] at h3
  unfold readRequestMut writeRequest
  simp only [h1, h2, h3]
  simp

/-- Reading back the encoded body of a valid response payload with a present
uid on any instance succeeds, fully consumes the region, and reconstructs
exactly the encoded payload. -/
theorem readResponseMut_writeResponseBody
    (self p : GetAttributesResponsePayload) (u : TextString)
    (hu : p._uid = some u) (hv : validResp p = true) :
    readResponseMut self
      (writeTLV RESPONSE_PAYLOAD_TAG TYPE_STRUCTURE
        (writeResponseBody u p._attributes)) = .ok (p, []) := by
  obtain ⟨utag, uval⟩ := u
  simp only [validResp, hu, Bool.and_eq_true, List.all_eq_true,
    decide_eq_true_eq] at hv
  obtain ⟨⟨hts, hblen⟩, hattrs⟩ := hv
  obtain ⟨htag, hulen⟩ := (validTS_iff _ _).1 hts
  simp only at htag hulen
  subst htag
  have h1 := readTLV_writeTLV RESPONSE_PAYLOAD_TAG TYPE_STRUCTURE
    (writeResponseBody ⟨UNIQUE_IDENTIFIER_TAG, uval⟩ p._attributes) []
    (by decide) hblen
  rw [List.append_nil] at h1
  have h2 : isTagNext UNIQUE_IDENTIFIER_TAG
      (writeResponseBody ⟨UNIQUE_IDENTIFIER_TAG, uval⟩ p._attributes)
        = true := by
    simp only [writeResponseBody, TextString.write]
    rw [isTagNext_writeTLV UNIQUE_IDENTIFIER_TAG UNIQUE_IDENTIFIER_TAG
        TYPE_TEXT_STRING uval
        ((List.map Attribute.write p._attributes).flatten) (by decide)]
    decide
  have h3 : readTLV UNIQUE_IDENTIFIER_TAG TYPE_TEXT_STRING
      (writeResponseBody ⟨UNIQUE_IDENTIFIER_TAG, uval⟩ p._attributes)
        = .ok (uval, (List.map Attribute.write p._attributes).flatten) := by
    simp only [writeResponseBody, TextString.write]
    exact readTLV_writeTLV UNIQUE_IDENTIFIER_TAG TYPE_TEXT_STRING uval
      ((List.map Attribute.write p._attributes).flatten) (by decide) hulen
  have h4 := readAttributesLoop_flatten p._attributes hattrs [] [] rfl
  rw [List.append_nil] at h4
  unfold readResponseMut
  simp only [h1, h2, if_true, h3, h4]
  simp [← hu]

/-- Request equality is reflexive. -/
theorem reqEq_refl (p : GetAttributesRequestPayload) : reqEq p p = true := by
  simp [reqEq, setEq, List.all_eq_true]

/-- Every pair drawn from a list zipped with itself is diagonal. -/
theorem zip_self_eq {α : Type} (l : List α) :
    ∀ ab ∈ l.zip l, ab.1 = ab.2 := by
  induction l with
  | nil => intro ab h; simp at h
  | cons x xs ih =>
    intro ab h
    rw [List.zip_cons_cons] at h
    rcases List.mem_cons.1 h with h1 | h2
    · subst h1; rfl
    · exact ih ab h2

/-- Response equality is reflexive. -/
theorem respEq_refl (p : GetAttributesResponsePayload) : respEq p p = true := by
  simp only [respEq, List.all_eq_true, Bool.and_eq_true, decide_eq_true_eq]
  exact ⟨⟨trivial, trivial⟩, fun ab hab => zip_self_eq _ ab hab⟩

/-- Claim C1: for every valid GetAttributes request payload (any uid string
or absent, any deduplicated name list) and every valid response payload with
a present uid, decoding the bytes produced by encoding the payload yields a
payload equal to it under that type's equality definition. -/
theorem c1_roundtrip :
    (∀ p : GetAttributesRequestPayload, validReq p = true →
      p.attribute_names.Nodup →
      ∃ q : GetAttributesRequestPayload,
        readRequest (writeRequest p) = .ok (q, []) ∧ reqEq p q = true) ∧
    (∀ p : GetAttributesResponsePayload, validResp p = true →
      ∀ u, p._uid = some u →
      ∃ bs q, writeResponse p = .ok bs ∧
        readResponse bs = .ok (q, []) ∧ respEq p q = true) := by
  constructor
  · intro p hv _
    refine ⟨p, ?_, reqEq_refl p⟩
    unfold readRequest
    rw [readRequestMut_writeRequest ⟨none, []⟩ p hv]
  · intro p hv u hu
    refine ⟨writeTLV RESPONSE_PAYLOAD_TAG TYPE_STRUCTURE
      (writeResponseBody u p._attributes), p, ?_, ?_, respEq_refl p⟩
    · simp [writeResponse, hu]
    · unfold readResponse
      rw [readResponseMut_writeResponseBody ⟨none, []⟩ p u hu hv]

/-- Concrete instantiation of the round-trip theorem: a request with uid
"a" and name "b", and a response with uid "a" and one attribute. -/
theorem c1_roundtrip_witness :
    (∃ q, readRequest (writeRequest
        ⟨some ⟨UNIQUE_IDENTIFIER_TAG, [97]⟩, [⟨ATTRIBUTE_NAME_TAG, [98]⟩]⟩)
          = .ok (q, []) ∧
      reqEq ⟨some ⟨UNIQUE_IDENTIFIER_TAG, [97]⟩,
        [⟨ATTRIBUTE_NAME_TAG, [98]⟩]⟩ q = true) ∧
    (∃ bs q, writeResponse
        ⟨some ⟨UNIQUE_IDENTIFIER_TAG, [97]⟩, [⟨[1, 2]⟩]⟩ = .ok bs ∧
      readResponse bs = .ok (q, []) ∧
      respEq ⟨some ⟨UNIQUE_IDENTIFIER_TAG, [97]⟩, [⟨[1, 2]⟩]⟩ q = true) :=
  ⟨c1_roundtrip.1 _ (by decide) (by decide),
   c1_roundtrip.2 _ (by decide) _ rfl⟩

/-- A successful response decode always carries a present uid. -/
theorem readResponseMut_ok_uid (self : GetAttributesResponsePayload)
    (s : List Nat) (p : GetAttributesResponsePayload) (r : List Nat)
    (h : readResponseMut self s = .ok (p, r)) : p._uid ≠ none := by
  unfold readResponseMut at h
  split at h
  · exact absurd h (by simp)
  · split at h
    · split at h
      · exact absurd h (by simp)
      · split at h
        · exact absurd h (by simp)
        · split at h
          · simp only [Except.ok.injEq, Prod.mk.injEq] at h
            rw [← h.1]
            simp
          · exact absurd h (by simp)
    · exact absurd h (by simp)

/-- Claim C2: encoding a response payload whose identifier is absent fails
with the missing-field fault carrying the source message, producing no
payload octets, and a successful encode is only possible with a present
identifier. -/
theorem c2_encode_requires_uid :
    (∀ p : GetAttributesResponsePayload, p._uid = none →
      writeResponse p = .error
        (.missingField "The GetAttributes response uid is required.")) ∧
    (∀ p bs, writeResponse p = .ok bs → p._uid ≠ none) := by
  constructor
  · intro p h
    simp [writeResponse, h]
  · intro p bs h hn
    unfold writeResponse at h
    rw [hn] at h
    exact absurd h (by simp)

/-- Concrete instantiation: the default-constructed response payload fails
to encode. -/
theorem c2_encode_requires_uid_witness :
    writeResponse ⟨none, []⟩ = .error
      (.missingField "The GetAttributes response uid is required.") :=
  c2_encode_requires_uid.1 ⟨none, []⟩ rfl

/-- Claim C3: when the first tag inside the response payload body is not the
UniqueIdentifier tag, decode fails with the malformed-encoding fault
carrying the source message, and a decoded response payload with an absent
identifier is not a reachable result of decode. -/
theorem c3_decode_requires_uid :
    (∀ s body rest,
      readTLV RESPONSE_PAYLOAD_TAG TYPE_STRUCTURE s = .ok (body, rest) →
      isTagNext UNIQUE_IDENTIFIER_TAG body = false →
      readResponse s = .error (.malformedEncoding
        "expected GetAttributes response uid not found")) ∧
    (∀ s p r, readResponse s = .ok (p, r) → p._uid ≠ none) := by
  constructor
  · intro s body rest h1 h2
    unfold readResponse readResponseMut
    simp only [h1, h2]
    simp
  · intro s p r h
    unfold readResponse at h
    split at h
    · exact absurd h (by simp)
    · rename_i x heq
      rw [Except.ok.inj h] at heq
      exact readResponseMut_ok_uid _ _ _ _ heq

/-- Concrete instantiation: a response region with an empty carved body has
no UniqueIdentifier tag first, so decode fails with the source message. -/
theorem c3_decode_requires_uid_witness :
    readResponse (writeTLV RESPONSE_PAYLOAD_TAG TYPE_STRUCTURE []) =
      .error (.malformedEncoding
        "expected GetAttributes response uid not found") :=
  c3_decode_requires_uid.1 (writeTLV RESPONSE_PAYLOAD_TAG TYPE_STRUCTURE [])
    [] [] (by decide) rfl

/-- First-occurrence collapse commutes with filtering by an unrelated-value
predicate. -/
theorem firstOcc_filter (x : List Nat) (l : List (List Nat)) :
    firstOcc (l.filter (fun y => decide (y ≠ x))) =
      (firstOcc l).filter (fun y => decide (y ≠ x)) := by
  induction l with
  | nil => rfl
  | cons y ys ih =>
    by_cases hyx : y = x
    · subst hyx
      rw [List.filter_cons, if_neg (by simp), ih]
      simp only [firstOcc]
      rw [List.filter_cons, if_neg (by simp), List.filter_filter]
      simp
    · rw [List.filter_cons, if_pos (by simp [hyx])]
      simp only [firstOcc]
      rw [ih]
      rw [List.filter_cons, if_pos (by simp [hyx])]
      rw [List.filter_comm]

/-- The accumulator loop of the source setter computes the specification's
first-occurrence collapse of the not-yet-seen values, appended to the
accumulator. -/
theorem foldl_dedup_eq (l : List (List Nat)) :
    ∀ acc, l.foldl (fun ns n => if n ∈ ns then ns else ns ++ [n]) acc =
      acc ++ firstOcc (l.filter (fun y => decide (y ∉ acc))) := by
  induction l with
  | nil => intro acc; simp [firstOcc]
  | cons x xs ih =>
    intro acc
    by_cases hx : x ∈ acc
    · rw [List.foldl_cons, if_pos hx, ih, List.filter_cons]
      simp [hx]
    · rw [List.foldl_cons, if_neg hx, ih]
      have hsplit : (fun y : List Nat => decide (y ∉ acc ++ [x])) =
          fun y => decide (y ≠ x) && decide (y ∉ acc) := by
        funext y
        by_cases h1 : y ∈ acc <;> by_cases h2 : y = x <;>
          simp [h1, h2, List.mem_append]
      rw [hsplit, ← List.filter_filter, firstOcc_filter]
      rw [List.filter_cons, if_pos (by simp [hx])]
      simp only [firstOcc]
      rw [List.append_assoc]
      rfl

/-- The typed loop of the setter, applied to a list of strings, reduces to
the accumulator fold. -/
theorem namesLoop_str (strs : List (List Nat)) :
    ∀ i acc, namesLoop (strs.map PyScalar.str) i acc =
      .ok (strs.foldl (fun ns n => if n ∈ ns then ns else ns ++ [n]) acc) := by
  induction strs with
  | nil => intro i acc; rfl
  | cons s ss ih =>
    intro i acc
    simp only [List.map_cons, namesLoop, List.foldl_cons]
    by_cases h : s ∈ acc
    · rw [if_pos h, if_pos h, ih]
    · rw [if_neg h, if_neg h, ih]

/-- Claim C4: the attribute_names setter (and the constructor that calls it)
stores the input string list with duplicates removed, keeping the first
occurrence of each value in its position with relative order otherwise
preserved; in particular the input of "a", "b", "a", "c" yields the stored
names "a", "b", "c". -/
theorem c4_dedup :
    (∀ strs : List (List Nat),
      attributeNamesSetter (.listV (strs.map PyScalar.str)) =
        .ok ((firstOcc strs).map fun n => ⟨ATTRIBUTE_NAME_TAG, n⟩)) ∧
    (∀ strs : List (List Nat),
      mkRequest (.scalar .noneS) (.listV (strs.map PyScalar.str)) =
        .ok ⟨none, (firstOcc strs).map fun n => ⟨ATTRIBUTE_NAME_TAG, n⟩⟩) ∧
    attributeNamesSetter
        (.listV [.str [97], .str [98], .str [97], .str [99]]) =
      .ok [⟨ATTRIBUTE_NAME_TAG, [97]⟩, ⟨ATTRIBUTE_NAME_TAG, [98]⟩,
           ⟨ATTRIBUTE_NAME_TAG, [99]⟩] := by
  have hmain : ∀ strs : List (List Nat),
      attributeNamesSetter (.listV (strs.map PyScalar.str)) =
        .ok ((firstOcc strs).map fun n => ⟨ATTRIBUTE_NAME_TAG, n⟩) := by
    intro strs
    have hl := namesLoop_str strs 0 []
    rw [foldl_dedup_eq strs []] at hl
    simp only [attributeNamesSetter, hl]
    simp
  refine ⟨hmain, ?_, hmain [[97], [98], [97], [99]]⟩
  intro strs
  simp only [mkRequest, uidSetter, hmain, bind, Except.bind]
  rfl

/-- Claim C5: request equality is order-independent over attribute names
(payloads with equal uids and set-equal name collections are equal), while
response equality is order-sensitive over attributes (swapping two distinct
attributes breaks equality). -/
theorem c5_equality_semantics :
    (∀ p q : GetAttributesRequestPayload, p.uid = q.uid →
      (∀ x, x ∈ p.attribute_names ↔ x ∈ q.attribute_names) →
      reqEq p q = true) ∧
    (∀ (u : Option TextString) (a1 a2 : Attribute), a1 ≠ a2 →
      respEq ⟨u, [a1, a2]⟩ ⟨u, [a2, a1]⟩ = false) := by
  constructor
  · intro p q h1 h2
    simp only [reqEq, setEq, Bool.and_eq_true, decide_eq_true_eq,
      List.all_eq_true]
    exact ⟨h1, fun x hx => (h2 x).1 hx, fun y hy => (h2 y).2 hy⟩
  · intro u a1 a2 hne
    simp [respEq, hne]

/-- Concrete instantiation: request payloads built from names "a","b" and
"b","a" are equal; response payloads with two distinct attributes in swapped
orders are not. -/
theorem c5_equality_semantics_witness :
    reqEq ⟨none, [⟨ATTRIBUTE_NAME_TAG, [97]⟩, ⟨ATTRIBUTE_NAME_TAG, [98]⟩]⟩
        ⟨none, [⟨ATTRIBUTE_NAME_TAG, [98]⟩, ⟨ATTRIBUTE_NAME_TAG, [97]⟩]⟩
        = true ∧
    respEq ⟨some ⟨UNIQUE_IDENTIFIER_TAG, [97]⟩, [⟨[1]⟩, ⟨[2]⟩]⟩
        ⟨some ⟨UNIQUE_IDENTIFIER_TAG, [97]⟩, [⟨[2]⟩, ⟨[1]⟩]⟩ = false :=
  ⟨c5_equality_semantics.1 _ _ rfl
      (fun x => by
        show x ∈ [[97], [98]] ↔ x ∈ [[98], [97]]
        simp [or_comm]),
   c5_equality_semantics.2 (some ⟨UNIQUE_IDENTIFIER_TAG, [97]⟩) ⟨[1]⟩ ⟨[2]⟩
      (by decide)⟩

/-- Claim C6: for both payload decodes, once the identifier and the
tag-matching repeated fields have been consumed from the bounded sub-region
carved out by the declared length, any remaining octet in that sub-region
makes decode fail with the oversized malformed-encoding fault, and decode
succeeds only when the sub-region is fully consumed. -/
theorem c6_oversized :
    (∀ s body rest uidOpt afterUid names leftover,
      readTLV REQUEST_PAYLOAD_TAG TYPE_STRUCTURE s = .ok (body, rest) →
      readUid body = .ok (uidOpt, afterUid) →
      readNames afterUid = .ok (names, leftover) →
      (leftover ≠ [] →
        readRequest s = .error (.malformedEncoding "oversized")) ∧
      (∀ x, readRequest s = .ok x → leftover = [])) ∧
    (∀ s body rest v afterUid attrs leftover,
      readTLV RESPONSE_PAYLOAD_TAG TYPE_STRUCTURE s = .ok (body, rest) →
      isTagNext UNIQUE_IDENTIFIER_TAG body = true →
      readTLV UNIQUE_IDENTIFIER_TAG TYPE_TEXT_STRING body
        = .ok (v, afterUid) →
      readAttributesLoop [] afterUid = .ok (attrs, leftover) →
      (leftover ≠ [] →
        readResponse s = .error (.malformedEncoding "oversized")) ∧
      (∀ x, readResponse s = .ok x → leftover = [])) := by
  constructor
  · intro s body rest uidOpt afterUid names leftover h1 h2 h3
    unfold readRequest readRequestMut
    simp only [h1, h2, h3]
    constructor
    · intro hne
      rw [if_neg hne]
    · intro x hx
      by_cases hlo : leftover = []
      · exact hlo
      · rw [if_neg hlo] at hx
        exact absurd hx (by simp)
  · intro s body rest v afterUid attrs leftover h1 h2 h3 h4
    unfold readResponse readResponseMut
    simp only [h1, h2, h3, h4, if_true]
    constructor
    · intro hne
      rw [if_neg hne]
    · intro x hx
      by_cases hlo : leftover = []
      · exact hlo
      · rw [if_neg hlo] at hx
        exact absurd hx (by simp)

/-- Concrete instantiation: a single stray octet inside the carved body of
either payload kind triggers the oversized fault. -/
theorem c6_oversized_witness :
    readRequest (writeTLV REQUEST_PAYLOAD_TAG TYPE_STRUCTURE [0]) =
        .error (.malformedEncoding "oversized") ∧
    readResponse (writeTLV RESPONSE_PAYLOAD_TAG TYPE_STRUCTURE
        (writeTLV UNIQUE_IDENTIFIER_TAG TYPE_TEXT_STRING [] ++ [0])) =
      .error (.malformedEncoding "oversized") :=
  ⟨(c6_oversized.1 (writeTLV REQUEST_PAYLOAD_TAG TYPE_STRUCTURE [0])
      [0] [] none [0] [] [0] (by decide) (by decide)
      (by rw [readNames]; decide)).1 (by decide),
   (c6_oversized.2 (writeTLV RESPONSE_PAYLOAD_TAG TYPE_STRUCTURE
        (writeTLV UNIQUE_IDENTIFIER_TAG TYPE_TEXT_STRING [] ++ [0]))
      (writeTLV UNIQUE_IDENTIFIER_TAG TYPE_TEXT_STRING [] ++ [0]) []
      [] [0] [] [0] (by decide) (by decide) (by decide)
      (by rw [readAttributesLoop]; decide)).1 (by decide)⟩

/-- Claim C7 as frozen predicts that the zero-based position of the first
offending element is reported; the source interpolates the zero-based index
plus one, so for the input of "a" then the integer 5 the reported position
is 2, not 1. -/
theorem c7_position_counterexample :
    attributeNamesSetter (.listV [.str [97], .intV 5]) =
      .error (.typeFault (namesItemMsg 2 "int")) ∧
    namesItemMsg 2 "int" ≠ namesItemMsg 1 "int" := by
  constructor
  · rfl
  · decide

/-- The index bookkeeping of the validation loop: with every element before
the offender being a string, the loop reports the offender's one-based
position offset by the starting index. -/
theorem namesLoop_first_offender (pre : List PyScalar) (v : PyScalar)
    (post : List PyScalar)
    (hpre : ∀ x ∈ pre, ∃ s, x = PyScalar.str s)
    (hv : ∀ s, v ≠ PyScalar.str s) :
    ∀ i acc, namesLoop (pre ++ v :: post) i acc =
      .error (.typeFault
        (namesItemMsg (i + pre.length + 1) (pyTypeName v))) := by
  induction pre with
  | nil =>
    intro i acc
    cases v with
    | str s => exact absurd rfl (hv s)
    | intV n => rfl
    | noneS => rfl
    | attrS a => rfl
  | cons x pre ih =>
    intro i acc
    obtain ⟨s, hs⟩ := hpre x (List.mem_cons_self _ _)
    subst hs
    have ih2 := ih (fun m hm => hpre m (List.mem_cons_of_mem _ hm))
    simp only [List.cons_append, namesLoop, List.length_cons]
    have harith : i + 1 + pre.length + 1 = i + (pre.length + 1) + 1 := by
      omega
    by_cases hmem : s ∈ acc
    · rw [if_pos hmem]
      exact (ih2 (i + 1) acc).trans (by rw [harith])
    · rw [if_neg hmem]
      exact (ih2 (i + 1) (acc ++ [s])).trans (by rw [harith])

/-- Claim C7 amended: for every list passed to the attribute_names setter
whose first non-string element sits at zero-based index i, the setter fails
with a TypeFault whose message reports the one-based position i + 1 and that
element's type; for the input of "a" then 5 the reported position is 2. -/
theorem c7_position_amended (pre : List PyScalar) (v : PyScalar)
    (post : List PyScalar)
    (hpre : ∀ x ∈ pre, ∃ s, x = PyScalar.str s)
    (hv : ∀ s, v ≠ PyScalar.str s) :
    attributeNamesSetter (.listV (pre ++ v :: post)) =
      .error (.typeFault
        (namesItemMsg (pre.length + 1) (pyTypeName v))) := by
  have h := namesLoop_first_offender pre v post hpre hv 0 []
  rw [Nat.zero_add] at h
  simp only [attributeNamesSetter, h]

/-- Concrete instantiation of the amended claim: the offender at zero-based
index 2 is reported as item 3. -/
theorem c7_position_amended_witness :
    attributeNamesSetter (.listV [.str [97], .str [98], .noneS]) =
      .error (.typeFault (namesItemMsg 3 "NoneType")) :=
  c7_position_amended [.str [97], .str [98]] .noneS []
    (fun x hx => by
      rcases List.mem_cons.1 hx with h | h
      · exact ⟨[97], h⟩
      · rcases List.mem_cons.1 h with h2 | h2
        · exact ⟨[98], h2⟩
        · exact absurd h2 (by simp))
    (fun s h => PyScalar.noConfusion h)

/-- Decoding the stray-octet region on an instance holding uid value 1 fails
with the oversized fault and leaves the instance holding the freshly decoded
uid value 2. -/
theorem readResponseMut_oversized_example
    (self : GetAttributesResponsePayload) :
    readResponseMut self oversizedResponseStream =
      .error (.malformedEncoding "oversized",
        ⟨some ⟨UNIQUE_IDENTIFIER_TAG, [2]⟩, []⟩) := by
  have h1 : readTLV RESPONSE_PAYLOAD_TAG TYPE_STRUCTURE
      oversizedResponseStream =
        .ok (writeTLV UNIQUE_IDENTIFIER_TAG TYPE_TEXT_STRING [2] ++ [0],
          []) := by decide
  have h2 : isTagNext UNIQUE_IDENTIFIER_TAG
      (writeTLV UNIQUE_IDENTIFIER_TAG TYPE_TEXT_STRING [2] ++ [0])
        = true := by decide
  have h3 : readTLV UNIQUE_IDENTIFIER_TAG TYPE_TEXT_STRING
      (writeTLV UNIQUE_IDENTIFIER_TAG TYPE_TEXT_STRING [2] ++ [0])
        = .ok ([2], [0]) := by decide
  have h4 : readAttributesLoop [] [0] = .ok ([], [0]) := by
    rw [readAttributesLoop]; decide
  unfold readResponseMut
  simp only [h1, h2, h3, h4, if_true]
  decide

/-- Claim C8 as frozen says every failing operation leaves the instance
unchanged; a failing decode refutes it - the oversized failure occurs after
the uid field has already been overwritten in place, so the pre-call uid
value 1 is replaced by the decoded value 2 even though the read fails. -/
theorem c8_atomicity_counterexample :
    readResponseMut ⟨some ⟨UNIQUE_IDENTIFIER_TAG, [1]⟩, []⟩
        oversizedResponseStream =
      .error (.malformedEncoding "oversized",
        ⟨some ⟨UNIQUE_IDENTIFIER_TAG, [2]⟩, []⟩) ∧
    (⟨some ⟨UNIQUE_IDENTIFIER_TAG, [2]⟩, []⟩ :
        GetAttributesResponsePayload).uid ≠
      (⟨some ⟨UNIQUE_IDENTIFIER_TAG, [1]⟩, []⟩ :
        GetAttributesResponsePayload).uid :=
  ⟨readResponseMut_oversized_example _, by decide⟩

/-- Claim C8 amended: constructor, setter and encode failures are atomic -
a raising setter leaves the instance exactly as it was - but a failing
decode is not: it can leave partially updated fields behind, as the
oversized response decode shows. -/
theorem c8_atomicity_amended :
    (∀ p v e q, setRequestUidMut p v = .error (e, q) → q = p) ∧
    (∀ p v e q, setAttributeNamesMut p v = .error (e, q) → q = p) ∧
    (∀ p v e q, setResponseUidMut p v = .error (e, q) → q = p) ∧
    (∀ p v e q, setAttributesMut p v = .error (e, q) → q = p) ∧
    (∃ (self q : GetAttributesResponsePayload) (s : List Nat) (e : KFault),
      readResponseMut self s = .error (e, q) ∧ q ≠ self) := by
  refine ⟨?_, ?_, ?_, ?_, ?_⟩
  · intro p v e q h
    unfold setRequestUidMut at h
    cases hu : uidSetter v with
    | error e2 => rw [hu] at h; simp at h; exact h.2.symm
    | ok u => rw [hu] at h; simp at h
  · intro p v e q h
    unfold setAttributeNamesMut at h
    cases hu : attributeNamesSetter v with
    | error e2 => rw [hu] at h; simp at h; exact h.2.symm
    | ok ns => rw [hu] at h; simp at h
  · intro p v e q h
    unfold setResponseUidMut at h
    cases hu : uidSetter v with
    | error e2 => rw [hu] at h; simp at h; exact h.2.symm
    | ok u => rw [hu] at h; simp at h
  · intro p v e q h
    unfold setAttributesMut at h
    cases hu : attributesSetter v with
    | error e2 => rw [hu] at h; simp at h; exact h.2.symm
    | ok attrs => rw [hu] at h; simp at h
  · exact ⟨⟨some ⟨UNIQUE_IDENTIFIER_TAG, [1]⟩, []⟩,
      ⟨some ⟨UNIQUE_IDENTIFIER_TAG, [2]⟩, []⟩,
      oversizedResponseStream, .malformedEncoding "oversized",
      readResponseMut_oversized_example _, by decide⟩

/-- Concrete instantiation of the amended claim: a failing uid assignment
leaves the instance unchanged. -/
theorem c8_atomicity_amended_witness :
    (⟨none, []⟩ : GetAttributesRequestPayload) =
      (⟨none, []⟩ : GetAttributesRequestPayload) :=
  c8_atomicity_amended.1 ⟨none, []⟩ (.scalar (.intV 0))
    (.typeFault "uid must be a string") ⟨none, []⟩ (by decide)

/-- Claim C9: request decode does not deduplicate attribute names - a byte
region whose body carries attribute-name fields with duplicate string
values decodes to a payload whose stored name list holds those duplicates
exactly as they appeared on the wire, in wire order. -/
theorem c9_decode_no_dedup (uidOpt : Option (List Nat))
    (names : List (List Nat)) (hdup : ¬ names.Nodup)
    (hv : validReq ⟨uidOpt.map fun s => ⟨UNIQUE_IDENTIFIER_TAG, s⟩,
        names.map fun n => ⟨ATTRIBUTE_NAME_TAG, n⟩⟩ = true) :
    readRequest (writeRequest
        ⟨uidOpt.map fun s => ⟨UNIQUE_IDENTIFIER_TAG, s⟩,
          names.map fun n => ⟨ATTRIBUTE_NAME_TAG, n⟩⟩) =
      .ok (⟨uidOpt.map fun s => ⟨UNIQUE_IDENTIFIER_TAG, s⟩,
          names.map fun n => ⟨ATTRIBUTE_NAME_TAG, n⟩⟩, []) ∧
    (⟨uidOpt.map fun s => ⟨UNIQUE_IDENTIFIER_TAG, s⟩,
        names.map fun n => ⟨ATTRIBUTE_NAME_TAG, n⟩⟩ :
      GetAttributesRequestPayload).attribute_names = names := by
  constructor
  · unfold readRequest
    rw [readRequestMut_writeRequest ⟨none, []⟩ _ hv]
  · simp only [GetAttributesRequestPayload.attribute_names, List.map_map]
    show List.map id names = names
    exact List.map_id names

/-- Concrete instantiation: the wire name list "a","a" survives decode with
its duplicate intact. -/
theorem c9_decode_no_dedup_witness :
    readRequest (writeRequest
        ⟨none, [⟨ATTRIBUTE_NAME_TAG, [97]⟩, ⟨ATTRIBUTE_NAME_TAG, [97]⟩]⟩) =
      .ok (⟨none,
        [⟨ATTRIBUTE_NAME_TAG, [97]⟩, ⟨ATTRIBUTE_NAME_TAG, [97]⟩]⟩, []) ∧
    (⟨none, [⟨ATTRIBUTE_NAME_TAG, [97]⟩, ⟨ATTRIBUTE_NAME_TAG, [97]⟩]⟩ :
      GetAttributesRequestPayload).attribute_names = [[97], [97]] :=
  c9_decode_no_dedup none [[97], [97]] (by decide) (by decide)

/-- A successful request decode is a function of the byte region alone: the
prior contents of the instance never reach the success result. -/
theorem readRequestMut_ok_indep (s1 s2 : GetAttributesRequestPayload)
    (stream : List Nat) (x : GetAttributesRequestPayload × List Nat)
    (h : readRequestMut s1 stream = .ok x) :
    readRequestMut s2 stream = .ok x := by
  unfold readRequestMut at h ⊢
  cases h1 : readTLV REQUEST_PAYLOAD_TAG TYPE_STRUCTURE stream with
  | error e => simp [h1] at h
  | ok br =>
    obtain ⟨body, rest⟩ := br
    simp only [h1] at h ⊢
    cases h2 : readUid body with
    | error e => simp [h2] at h
    | ok ur =>
      obtain ⟨uidOpt, afterUid⟩ := ur
      simp only [h2] at h ⊢
      cases h3 : readNames afterUid with
      | error e => simp [h3] at h
      | ok nr =>
        obtain ⟨names, leftover⟩ := nr
        simp only [h3] at h ⊢
        exact h

/-- A successful response decode is a function of the byte region alone. -/
theorem readResponseMut_ok_indep (s1 s2 : GetAttributesResponsePayload)
    (stream : List Nat) (x : GetAttributesResponsePayload × List Nat)
    (h : readResponseMut s1 stream = .ok x) :
    readResponseMut s2 stream = .ok x := by
  unfold readResponseMut at h ⊢
  cases h1 : readTLV RESPONSE_PAYLOAD_TAG TYPE_STRUCTURE stream with
  | error e => simp [h1] at h
  | ok br =>
    obtain ⟨body, rest⟩ := br
    simp only [h1] at h ⊢
    by_cases ht : isTagNext UNIQUE_IDENTIFIER_TAG body = true
    · simp only [ht, if_true] at h ⊢
      cases h2 : readTLV UNIQUE_IDENTIFIER_TAG TYPE_TEXT_STRING body with
      | error e => simp [h2] at h
      | ok vr =>
        obtain ⟨v, afterUid⟩ := vr
        simp only [h2] at h ⊢
        cases h3 : readAttributesLoop [] afterUid with
        | error ep => simp [h3] at h
        | ok ar =>
          obtain ⟨attrs, leftover⟩ := ar
          simp only [h3] at h ⊢
          exact h
    · simp only [Bool.not_eq_true] at ht
      simp [ht] at h

/-- Claim C10: decoding the same byte region successfully on two instances
with arbitrary prior field values yields equal results - the decoded state
is determined by the input bytes alone. -/
theorem c10_decode_state_independent :
    (∀ s1 s2 stream x1 x2,
      readRequestMut s1 stream = .ok x1 →
      readRequestMut s2 stream = .ok x2 → x1 = x2) ∧
    (∀ s1 s2 stream x1 x2,
      readResponseMut s1 stream = .ok x1 →
      readResponseMut s2 stream = .ok x2 → x1 = x2) := by
  constructor
  · intro s1 s2 stream x1 x2 h1 h2
    have h3 := readRequestMut_ok_indep s1 s2 stream x1 h1
    rw [h2] at h3
    exact (Except.ok.inj h3).symm
  · intro s1 s2 stream x1 x2 h1 h2
    have h3 := readResponseMut_ok_indep s1 s2 stream x1 h1
    rw [h2] at h3
    exact (Except.ok.inj h3).symm

/-- Concrete instantiation: two instances with different prior contents
decode the same regions to the same results. -/
theorem c10_decode_state_independent_witness :
    ((⟨none, []⟩ : GetAttributesRequestPayload), ([] : List Nat)) =
      ((⟨none, []⟩ : GetAttributesRequestPayload), ([] : List Nat)) ∧
    ((⟨some ⟨UNIQUE_IDENTIFIER_TAG, [1]⟩, []⟩ :
        GetAttributesResponsePayload), ([] : List Nat)) =
      ((⟨some ⟨UNIQUE_IDENTIFIER_TAG, [1]⟩, []⟩ :
        GetAttributesResponsePayload), ([] : List Nat)) :=
  ⟨c10_decode_state_independent.1
    ⟨some ⟨UNIQUE_IDENTIFIER_TAG, [5]⟩, []⟩
    ⟨none, [⟨ATTRIBUTE_NAME_TAG, [7]⟩]⟩
    (writeRequest ⟨none, []⟩) _ _
    (readRequestMut_writeRequest _ _ (by decide))
    (readRequestMut_writeRequest _ _ (by decide)),
   c10_decode_state_independent.2
    ⟨some ⟨UNIQUE_IDENTIFIER_TAG, [5]⟩, [⟨[9]⟩]⟩
    ⟨none, []⟩
    (writeTLV RESPONSE_PAYLOAD_TAG TYPE_STRUCTURE
      (writeResponseBody ⟨UNIQUE_IDENTIFIER_TAG, [1]⟩ [])) _ _
    (readResponseMut_writeResponseBody _
      ⟨some ⟨UNIQUE_IDENTIFIER_TAG, [1]⟩, []⟩ _ rfl (by decide))
    (readResponseMut_writeResponseBody _
      ⟨some ⟨UNIQUE_IDENTIFIER_TAG, [1]⟩, []⟩ _ rfl (by decide))⟩
